import Mathlib

/-!
Verification of the mcp-protocol-server core (src/server.rs, src/error.rs,
src/handlers.rs, src/transport.rs) against its natural-language specification.

The dispatch engine, handler registry, capability builder and run loop are
embedded shallowly from `src/server.rs`.  The protocol data model (the
`mcp_protocol_types` crate) is an external collaborator of the repository:
its envelope and request/result shapes are modelled from the specification
(sections 3, 6 and 8), as noted on each such definition.  Async handlers are
embedded as pure functions from typed requests to `Except`-results; the
`tokio::sync::RwLock`-guarded `HashMap` registries are embedded as
extensional maps `String → Option Handler` with overwrite insertion, the
semantics of `HashMap::insert` / `HashMap::get`.
-/

/-- Modelled from the spec: the dynamically-typed JSON parameter/payload
values produced and consumed at the wire boundary (spec section 6: one JSON
object per exchange).  Stands for `serde_json::Value`. -/
inductive Json where
  | null : Json
  | bool (b : Bool) : Json
  | num (n : Int) : Json
  | str (s : String) : Json
  | arr (elems : List Json) : Json
  | obj (fields : List (String × Json)) : Json

/-- Modelled from the spec: the structured protocol error type of the
external data model, "a structured error type with at least
`method_not_found(name)` and `invalid_params(message)` constructors"
(spec section 6). -/
inductive McpError where
  | method_not_found (message : String) : McpError
  | invalid_params (message : String) : McpError
  | other (code : Int) (message : String) (data : Option Json) : McpError

/-- Modelled from the spec: the request envelope — "an identifier (used to
correlate response), a method name, and optional, dynamically-typed
parameters" (spec section 3). -/
structure JsonRpcRequest where
  id : Json
  method : String
  params : Option Json

/-- Modelled from the spec: the response envelope — "the same identifier,
and exactly one of (success payload, structured error)" (spec sections 3
and 6: a response carries exactly one of a success `result` or an `error`
object). -/
structure JsonRpcResponse where
  id : Json
  result : Option Json
  error : Option McpError

/-- Modelled from the spec: the success-envelope constructor used by the
dispatch engine (`JsonRpcResponse::success`). -/
def JsonRpcResponse.success (id : Json) (v : Json) : JsonRpcResponse :=
  { id := id, result := some v, error := none }

/-- Modelled from the spec: the error-envelope constructor used by the
dispatch engine (`JsonRpcResponse::error`). -/
def JsonRpcResponse.mkError (id : Json) (e : McpError) : JsonRpcResponse :=
  { id := id, result := none, error := some e }

/-- Field lookup in a decoded JSON object, first binding wins. -/
def lookupField : List (String × Json) → String → Option Json
  | [], _ => none
  | (k, v) :: rest, key => if k = key then some v else lookupField rest key

/-- Modelled from the spec: the typed `tools/call` request shape of the
external data model — a tool `name` and optional `arguments`
(spec section 8: `params: {name: "echo", arguments: {message: "hi"}}`). -/
structure CallToolRequest where
  name : String
  arguments : Option Json

/-- Modelled from the spec: decoding `params` into the typed `tools/call`
request shape (`serde_json::from_value::<CallToolRequest>`), failing on a
missing or non-string `name` field or a non-object value. -/
def CallToolRequest.fromJson : Json → Option CallToolRequest
  | Json.obj fields =>
    match lookupField fields "name" with
    | some (Json.str n) => some { name := n, arguments := lookupField fields "arguments" }
    | _ => none
  | _ => none

/-- Modelled from the spec: the typed `resources/read` request shape of the
external data model — the URI of the resource to read. -/
structure ReadResourceRequest where
  uri : String

/-- Modelled from the spec: decoding `params` into the typed
`resources/read` request shape (`serde_json::from_value`). -/
def ReadResourceRequest.fromJson : Json → Option ReadResourceRequest
  | Json.obj fields =>
    match lookupField fields "uri" with
    | some (Json.str u) => some { uri := u }
    | _ => none
  | _ => none

/-- Modelled from the spec: the typed `prompts/get` request shape of the
external data model — a prompt `name` and optional `arguments`. -/
structure GetPromptRequest where
  name : String
  arguments : Option Json

/-- Modelled from the spec: decoding `params` into the typed `prompts/get`
request shape (`serde_json::from_value`). -/
def GetPromptRequest.fromJson : Json → Option GetPromptRequest
  | Json.obj fields =>
    match lookupField fields "name" with
    | some (Json.str n) => some { name := n, arguments := lookupField fields "arguments" }
    | _ => none
  | _ => none

/-- Serialize an optional value, `null` for absence. -/
def optJson (f : α → Json) : Option α → Json
  | none => Json.null
  | some a => f a

/-- Modelled from the spec: one piece of tool-result content; the crate
documentation example uses `ToolResultContent::text(message)`. -/
inductive ToolResultContent where
  | text (s : String) : ToolResultContent

/-- Serialization of a `ToolResultContent` (`serde_json::to_value`). -/
def ToolResultContent.toJson : ToolResultContent → Json
  | .text s => Json.obj [("type", Json.str "text"), ("text", Json.str s)]

/-- Modelled from the spec: the typed `tools/call` result of the external
data model — `content` plus an optional error flag, as in the crate's
documented example `CallToolResult { content, is_error }`. -/
structure CallToolResult where
  content : List ToolResultContent
  is_error : Option Bool

/-- Serialization of a `CallToolResult` (`serde_json::to_value`), total:
"serialization of any success payload is assumed infallible for values
produced by this core" (spec section 4.3). -/
def CallToolResult.toJson (r : CallToolResult) : Json :=
  Json.obj [("content", Json.arr (r.content.map ToolResultContent.toJson)),
            ("isError", optJson Json.bool r.is_error)]

/-- Modelled from the spec: the typed `resources/read` result of the
external data model. -/
structure ReadResourceResult where
  contents : List Json

/-- Serialization of a `ReadResourceResult` (`serde_json::to_value`). -/
def ReadResourceResult.toJson (r : ReadResourceResult) : Json :=
  Json.obj [("contents", Json.arr r.contents)]

/-- Modelled from the spec: the typed `prompts/get` result of the external
data model. -/
structure GetPromptResult where
  description : Option String
  messages : List Json

/-- Serialization of a `GetPromptResult` (`serde_json::to_value`). -/
def GetPromptResult.toJson (r : GetPromptResult) : Json :=
  Json.obj [("description", optJson Json.str r.description),
            ("messages", Json.arr r.messages)]

/-- Modelled from the spec: the advertised tool descriptor of the external
data model (name plus description; spec section 3 treats descriptor lists
as opaque advertised data). -/
structure Tool where
  name : String
  description : String

/-- Serialization of a tool descriptor. -/
def Tool.toJson (t : Tool) : Json :=
  Json.obj [("name", Json.str t.name), ("description", Json.str t.description)]

/-- Modelled from the spec: the advertised resource descriptor of the
external data model. -/
structure Resource where
  uri : String
  name : String

/-- Serialization of a resource descriptor. -/
def Resource.toJson (r : Resource) : Json :=
  Json.obj [("uri", Json.str r.uri), ("name", Json.str r.name)]

/-- Modelled from the spec: the advertised prompt descriptor of the
external data model. -/
structure Prompt where
  name : String
  description : Option String

/-- Serialization of a prompt descriptor. -/
def Prompt.toJson (p : Prompt) : Json :=
  Json.obj [("name", Json.str p.name), ("description", optJson Json.str p.description)]

/-- Modelled from the spec: the tools capability record with its
`list_changed` sub-flag (spec section 3: categories "possibly carrying
sub-flags (e.g., list-change notification support)"). -/
structure ToolsCapability where
  list_changed : Option Bool

/-- Modelled from the spec: the resources capability record with its
`subscribe` and `list_changed` sub-flags. -/
structure ResourcesCapability where
  subscribe : Option Bool
  list_changed : Option Bool

/-- Modelled from the spec: the prompts capability record with its
`list_changed` sub-flag. -/
structure PromptsCapability where
  list_changed : Option Bool

/-- Modelled from the spec: the logging capability record (no fields). -/
structure LoggingCapability where

/-- Modelled from the spec: the capability set — "a record of which of
tools, resources, prompts, logging are active" (spec section 3). -/
structure ServerCapabilities where
  tools : Option ToolsCapability
  resources : Option ResourcesCapability
  prompts : Option PromptsCapability
  logging : Option LoggingCapability
  experimental : Option Json

/-- Modelled from the spec: the server identity of the external data model
(`Implementation { name, version }`). -/
structure Implementation where
  name : String
  version : String

/-- Serialization of the server identity. -/
def Implementation.toJson (i : Implementation) : Json :=
  Json.obj [("name", Json.str i.name), ("version", Json.str i.version)]

/-- Serialization of the capability set. -/
def ServerCapabilities.toJson (c : ServerCapabilities) : Json :=
  Json.obj [("tools", optJson (fun tc => Json.obj [("listChanged", optJson Json.bool tc.list_changed)]) c.tools),
            ("resources", optJson (fun rc => Json.obj [("subscribe", optJson Json.bool rc.subscribe), ("listChanged", optJson Json.bool rc.list_changed)]) c.resources),
            ("prompts", optJson (fun pc => Json.obj [("listChanged", optJson Json.bool pc.list_changed)]) c.prompts),
            ("logging", optJson (fun _ => Json.obj []) c.logging),
            ("experimental", optJson id c.experimental)]

/-- Modelled from the spec: the protocol version string supplied by the
external data model (`MCP_VERSION`). -/
def MCP_VERSION : String := "2024-11-05"

/-- Modelled from the spec: the `initialize` result of the external data
model — protocol version, capability set, server identity and optional
instructions (`InitializeResult` as constructed in `handle_initialize`). -/
structure InitializeResult where
  protocol_version : String
  capabilities : ServerCapabilities
  server_info : Implementation
  instructions : Option String

/-- Serialization of an `InitializeResult` (`serde_json::to_value`). -/
def InitializeResult.toJson (r : InitializeResult) : Json :=
  Json.obj [("protocolVersion", Json.str r.protocol_version),
            ("capabilities", r.capabilities.toJson),
            ("serverInfo", r.server_info.toJson),
            ("instructions", optJson Json.str r.instructions)]

/-- Modelled from the spec: the `tools/list` result of the external data
model (`ListToolsResult { tools, next_cursor }`). -/
structure ListToolsResult where
  tools : List Tool
  next_cursor : Option String

/-- Serialization of a `ListToolsResult`. -/
def ListToolsResult.toJson (r : ListToolsResult) : Json :=
  Json.obj [("tools", Json.arr (r.tools.map Tool.toJson)),
            ("nextCursor", optJson Json.str r.next_cursor)]

/-- Modelled from the spec: the `resources/list` result of the external
data model (`ListResourcesResult { resources, next_cursor }`). -/
structure ListResourcesResult where
  resources : List Resource
  next_cursor : Option String

/-- Serialization of a `ListResourcesResult`. -/
def ListResourcesResult.toJson (r : ListResourcesResult) : Json :=
  Json.obj [("resources", Json.arr (r.resources.map Resource.toJson)),
            ("nextCursor", optJson Json.str r.next_cursor)]

/-- Modelled from the spec: the `prompts/list` result of the external data
model (`ListPromptsResult { prompts, next_cursor }`). -/
structure ListPromptsResult where
  prompts : List Prompt
  next_cursor : Option String

/-- Serialization of a `ListPromptsResult`. -/
def ListPromptsResult.toJson (r : ListPromptsResult) : Json :=
  Json.obj [("prompts", Json.arr (r.prompts.map Prompt.toJson)),
            ("nextCursor", optJson Json.str r.next_cursor)]

/-- A tool handler, from `src/handlers.rs`: an asynchronous function from a
`CallToolRequest` to `Result<CallToolResult, McpError>`, embedded as a pure
function into `Except`. -/
def ToolHandler : Type := CallToolRequest → Except McpError CallToolResult

/-- A resource handler, from `src/handlers.rs`. -/
def ResourceHandler : Type := ReadResourceRequest → Except McpError ReadResourceResult

/-- A prompt handler, from `src/handlers.rs`. -/
def PromptHandler : Type := GetPromptRequest → Except McpError GetPromptResult

/-- Extensional embedding of `HashMap<String, H>`: the registry map as a
function from keys to optionally-registered handlers. -/
def HandlerMap (H : Type) : Type := String → Option H

/-- `HashMap::new()`: the empty registry map. -/
def HandlerMap.empty : HandlerMap H := fun _ => none

/-- `HashMap::insert(key, value)`: overwrite insertion — the inserted key
maps to the new value, every other key is unchanged. -/
def HandlerMap.insert (m : HandlerMap H) (key : String) (v : H) : HandlerMap H :=
  fun k => if k = key then some v else m k

/-- The server state, from `src/server.rs` (`struct Server`): immutable
identity, capability set and descriptor lists, plus the three
`Arc<RwLock<HashMap<..>>>` handler registries embedded extensionally. -/
structure Server where
  info : Implementation
  capabilities : ServerCapabilities
  tools : List Tool
  resources : List Resource
  prompts : List Prompt
  tool_handlers : HandlerMap ToolHandler
  resource_handlers : HandlerMap ResourceHandler
  prompt_handlers : HandlerMap PromptHandler

/-- The builder state, from `src/server.rs` (`struct ServerBuilder`). -/
structure ServerBuilder where
  name : String
  version : String
  description : Option String
  instructions : Option String
  tools : List Tool
  resources : List Resource
  prompts : List Prompt

/-- `ServerBuilder::new(name, version)`. -/
def ServerBuilder.new (name version : String) : ServerBuilder :=
  { name := name, version := version, description := none, instructions := none,
    tools := [], resources := [], prompts := [] }

/-- `ServerBuilder::with_description`. -/
def ServerBuilder.with_description (b : ServerBuilder) (description : String) : ServerBuilder :=
  { b with description := some description }

/-- `ServerBuilder::with_instructions`. -/
def ServerBuilder.with_instructions (b : ServerBuilder) (instructions : String) : ServerBuilder :=
  { b with instructions := some instructions }

/-- `ServerBuilder::with_tool`. -/
def ServerBuilder.with_tool (b : ServerBuilder) (tool : Tool) : ServerBuilder :=
  { b with tools := b.tools ++ [tool] }

/-- `ServerBuilder::with_resource`. -/
def ServerBuilder.with_resource (b : ServerBuilder) (resource : Resource) : ServerBuilder :=
  { b with resources := b.resources ++ [resource] }

/-- `ServerBuilder::with_prompt`. -/
def ServerBuilder.with_prompt (b : ServerBuilder) (prompt : Prompt) : ServerBuilder :=
  { b with prompts := b.prompts ++ [prompt] }

/-- `ServerBuilder::build`: derives the capability set from the three
descriptor lists (empty list ⇒ category absent; non-empty ⇒ category
present with sub-flags `None`; logging always present) and constructs the
server with empty handler registries.  The builder's `description` and
`instructions` fields are not used. -/
def ServerBuilder.build (b : ServerBuilder) : Server :=
  { info := { name := b.name, version := b.version },
    capabilities :=
      { tools := if b.tools.isEmpty then none else some { list_changed := none },
        resources := if b.resources.isEmpty then none else some { subscribe := none, list_changed := none },
        prompts := if b.prompts.isEmpty then none else some { list_changed := none },
        logging := some {},
        experimental := none },
    tools := b.tools,
    resources := b.resources,
    prompts := b.prompts,
    tool_handlers := HandlerMap.empty,
    resource_handlers := HandlerMap.empty,
    prompt_handlers := HandlerMap.empty }

/-- `Server::set_tool_handler(name, handler)`: inserts (or replaces) the
handler under `name` in the tool registry. -/
def Server.set_tool_handler (s : Server) (name : String) (handler : ToolHandler) : Server :=
  { s with tool_handlers := s.tool_handlers.insert name handler }

/-- `Server::set_resource_handler(handler)`: inserts (or replaces) the
handler under the fixed key `"default"` in the resource registry. -/
def Server.set_resource_handler (s : Server) (handler : ResourceHandler) : Server :=
  { s with resource_handlers := s.resource_handlers.insert "default" handler }

/-- `Server::set_prompt_handler(name, handler)`: inserts (or replaces) the
handler under `name` in the prompt registry. -/
def Server.set_prompt_handler (s : Server) (name : String) (handler : PromptHandler) : Server :=
  { s with prompt_handlers := s.prompt_handlers.insert name handler }

/-- `Server::handle_initialize`: builds the `InitializeResult` (protocol
version, capability set, server identity, `instructions: None`) exactly as
the source does. -/
def Server.initializeResult (s : Server) : InitializeResult :=
  { protocol_version := MCP_VERSION,
    capabilities := s.capabilities,
    server_info := s.info,
    instructions := none }

/-- `Server::handle_initialize`: success envelope carrying the serialized
`InitializeResult`. -/
def Server.handle_initialize (s : Server) (request : JsonRpcRequest) : JsonRpcResponse :=
  JsonRpcResponse.success request.id s.initializeResult.toJson

/-- `Server::handle_list_tools`: success envelope with the full tool list
and no cursor. -/
def Server.handle_list_tools (s : Server) (request : JsonRpcRequest) : JsonRpcResponse :=
  JsonRpcResponse.success request.id
    (ListToolsResult.toJson { tools := s.tools, next_cursor := none })

/-- `Server::handle_list_resources`: success envelope with the full
resource list and no cursor. -/
def Server.handle_list_resources (s : Server) (request : JsonRpcRequest) : JsonRpcResponse :=
  JsonRpcResponse.success request.id
    (ListResourcesResult.toJson { resources := s.resources, next_cursor := none })

/-- `Server::handle_list_prompts`: success envelope with the full prompt
list and no cursor. -/
def Server.handle_list_prompts (s : Server) (request : JsonRpcRequest) : JsonRpcResponse :=
  JsonRpcResponse.success request.id
    (ListPromptsResult.toJson { prompts := s.prompts, next_cursor := none })

/-- `Server::handle_call_tool`: decode `params` (absence or decode failure
⇒ `invalid_params`), look up the tool handler by the decoded name (absence
⇒ `method_not_found` naming the tool), invoke it, and map `Ok` to a success
envelope with the serialized result and `Err` to an error envelope carrying
the handler's error verbatim. -/
def Server.handle_call_tool (s : Server) (request : JsonRpcRequest) : JsonRpcResponse :=
  match request.params.bind CallToolRequest.fromJson with
  | none => JsonRpcResponse.mkError request.id (McpError.invalid_params "Invalid tool request")
  | some tool_request =>
    match s.tool_handlers tool_request.name with
    | some handler =>
      match handler tool_request with
      | Except.ok result => JsonRpcResponse.success request.id result.toJson
      | Except.error error => JsonRpcResponse.mkError request.id error
    | none =>
      JsonRpcResponse.mkError request.id
        (McpError.method_not_found ("Tool not found: " ++ tool_request.name))

/-- `Server::handle_read_resource`: decode `params`, look up the single
resource handler under the fixed key `"default"`, invoke, map the result. -/
def Server.handle_read_resource (s : Server) (request : JsonRpcRequest) : JsonRpcResponse :=
  match request.params.bind ReadResourceRequest.fromJson with
  | none => JsonRpcResponse.mkError request.id (McpError.invalid_params "Invalid resource request")
  | some resource_request =>
    match s.resource_handlers "default" with
    | some handler =>
      match handler resource_request with
      | Except.ok result => JsonRpcResponse.success request.id result.toJson
      | Except.error error => JsonRpcResponse.mkError request.id error
    | none =>
      JsonRpcResponse.mkError request.id
        (McpError.method_not_found "No resource handler configured")

/-- `Server::handle_get_prompt`: decode `params`, look up the prompt
handler by the decoded name, invoke, map the result. -/
def Server.handle_get_prompt (s : Server) (request : JsonRpcRequest) : JsonRpcResponse :=
  match request.params.bind GetPromptRequest.fromJson with
  | none => JsonRpcResponse.mkError request.id (McpError.invalid_params "Invalid prompt request")
  | some prompt_request =>
    match s.prompt_handlers prompt_request.name with
    | some handler =>
      match handler prompt_request with
      | Except.ok result => JsonRpcResponse.success request.id result.toJson
      | Except.error error => JsonRpcResponse.mkError request.id error
    | none =>
      JsonRpcResponse.mkError request.id
        (McpError.method_not_found ("Prompt not found: " ++ prompt_request.name))

/-- `Server::handle_request`: the fixed routing table over the method name;
the `match request.method.as_str()` of the source, embedded as the
equivalent chain of string comparisons, with the catch-all arm producing a
`method_not_found` error naming the method. -/
def Server.handle_request (s : Server) (request : JsonRpcRequest) : JsonRpcResponse :=
  if request.method = "initialize" then s.handle_initialize request
  else if request.method = "tools/list" then s.handle_list_tools request
  else if request.method = "tools/call" then s.handle_call_tool request
  else if request.method = "resources/list" then s.handle_list_resources request
  else if request.method = "resources/read" then s.handle_read_resource request
  else if request.method = "prompts/list" then s.handle_list_prompts request
  else if request.method = "prompts/get" then s.handle_get_prompt request
  else JsonRpcResponse.mkError request.id (McpError.method_not_found request.method)

/-- The server error taxonomy, from `src/error.rs`. -/
inductive ServerError where
  | transportErr (message : String) : ServerError
  | protocolErr (message : String) : ServerError
  | handlerErr (message : String) : ServerError
  | ioErr (message : String) : ServerError
  | serializationErr (message : String) : ServerError

/-- The transport boundary, from `src/transport.rs`: "receive one request"
and "send one response", each able to fail with a `ServerError`; embedded
as explicit state passing over a transport-state type `σ`. -/
structure TransportModel (σ : Type) where
  receive_request : σ → Except ServerError (JsonRpcRequest × σ)
  send_response : JsonRpcResponse → σ → Except ServerError σ

/-- `Server::run`: the dispatch loop — receive a request (`?` propagates a
receive failure), handle it, send the response (`?` propagates a send
failure), repeat.  The source loop is infinite; the embedding is fuel
indexed, with `Except.ok` at fuel exhaustion meaning "still running": the
loop itself exits only through a transport failure. -/
def Server.run (s : Server) (t : TransportModel σ) : Nat → σ → Except ServerError σ
  | 0, st => Except.ok st
  | n + 1, st => do
    let (request, st') ← t.receive_request st
    let response := s.handle_request request
    let st'' ← t.send_response response st'
    s.run t n st''

/-- Registry-guard events along one dispatch path: acquisition and release
of the registry's read guard, and the handler invocation. -/
inductive RegistryEvent where
  | readAcquire : RegistryEvent
  | readRelease : RegistryEvent
  | handlerInvoke : RegistryEvent
deriving DecidableEq

/-- Number of read guards held just before position `i` of a trace. -/
def guardDepthAt (tr : List RegistryEvent) (i : Nat) : Nat :=
  (tr.take i).foldl
    (fun d e =>
      match e with
      | RegistryEvent.readAcquire => d + 1
      | RegistryEvent.readRelease => d - 1
      | RegistryEvent.handlerInvoke => d) 0

/-- Whether every handler invocation in a trace happens while no registry
read guard is held. -/
def invokeOutsideGuard (tr : List RegistryEvent) : Bool :=
  (List.range tr.length).all fun i =>
    match tr[i]? with
    | some RegistryEvent.handlerInvoke => guardDepthAt tr i == 0
    | _ => true

/-- The registry-guard event trace of `Server::handle_call_tool` on the
path where a handler is found, read off the source: the read guard is
acquired (`let handlers = self.tool_handlers.read().await`) before the
lookup, the handler is invoked and awaited (`handler(tool_request).await`)
while the `handlers` guard is still live, and the guard is released only
when `handlers` is dropped at the end of the function. -/
def callToolGuardTrace : List RegistryEvent :=
  [RegistryEvent.readAcquire, RegistryEvent.handlerInvoke, RegistryEvent.readRelease]

/-- The registry-guard event trace of `Server::handle_read_resource` on the
handler-found path; the guard lifetime is identical in the source. -/
def readResourceGuardTrace : List RegistryEvent :=
  [RegistryEvent.readAcquire, RegistryEvent.handlerInvoke, RegistryEvent.readRelease]

/-- The registry-guard event trace of `Server::handle_get_prompt` on the
handler-found path; the guard lifetime is identical in the source. -/
def getPromptGuardTrace : List RegistryEvent :=
  [RegistryEvent.readAcquire, RegistryEvent.handlerInvoke, RegistryEvent.readRelease]

/-- Modelled from the spec: a reader-writer-lock write acquisition (used by
`set_*_handler` through `.write().await`) can be granted only when no read
guard is held (spec section 5: "many concurrent readers/invokers, exclusive
but brief writers during registration"). -/
def writeGrantable (readersHeld : Nat) : Bool := readersHeld == 0

/-- Modelled from the spec: a reader-writer-lock read acquisition (used by
the dispatch lookups through `.read().await`) is granted whenever no writer
holds the guard; concurrent readers coexist. -/
def readGrantable (writerHeld : Bool) : Bool := !writerHeld

/-- One handler-registration action on a server: the three `set_*_handler`
entry points of `src/server.rs`. -/
inductive RegAction where
  | setTool (name : String) (handler : ToolHandler) : RegAction
  | setResource (handler : ResourceHandler) : RegAction
  | setPrompt (name : String) (handler : PromptHandler) : RegAction

/-- Apply one registration action. -/
def Server.applyAction (s : Server) : RegAction → Server
  | RegAction.setTool n h => s.set_tool_handler n h
  | RegAction.setResource h => s.set_resource_handler h
  | RegAction.setPrompt n h => s.set_prompt_handler n h

/-- Apply a sequence of registration actions, left to right. -/
def Server.applyActions (s : Server) : List RegAction → Server
  | [] => s
  | a :: rest => (s.applyAction a).applyActions rest

/-- A builder with one registered tool descriptor, used to instantiate the
theorems on concrete inputs. -/
def wBuilder : ServerBuilder :=
  (ServerBuilder.new "my-server" "1.0.0").with_tool { name := "echo", description := "Echo back the input" }

/-- A tool handler that succeeds with the text content "hi". -/
def okToolHandler : ToolHandler :=
  fun _ => Except.ok { content := [ToolResultContent.text "hi"], is_error := none }

/-- A tool handler that fails with a structured handler-level error. -/
def errToolHandler : ToolHandler :=
  fun _ => Except.error (McpError.other 5 "boom" none)

/-- A tool handler that succeeds with the text content "old". -/
def oldToolHandler : ToolHandler :=
  fun _ => Except.ok { content := [ToolResultContent.text "old"], is_error := none }

/-- A tool handler that succeeds with the text content "new". -/
def newToolHandler : ToolHandler :=
  fun _ => Except.ok { content := [ToolResultContent.text "new"], is_error := none }

/-- A resource handler that succeeds with empty contents. -/
def wResourceHandler : ResourceHandler :=
  fun _ => Except.ok { contents := [] }

/-- A prompt handler that succeeds with no messages. -/
def wPromptHandler : PromptHandler :=
  fun _ => Except.ok { description := none, messages := [] }

/-- The built example server with tool, resource and prompt handlers
registered. -/
def wServerWithHandlers : Server :=
  (((wBuilder.build).set_tool_handler "echo" okToolHandler).set_resource_handler
    wResourceHandler).set_prompt_handler "greet" wPromptHandler

/-- The built example server whose "echo" tool handler fails. -/
def wServerErr : Server :=
  (wBuilder.build).set_tool_handler "echo" errToolHandler

/-- A well-formed `tools/call` request for the "echo" tool. -/
def reqEcho : JsonRpcRequest :=
  { id := Json.num 8, method := "tools/call",
    params := some (Json.obj [("name", Json.str "echo"),
                              ("arguments", Json.obj [("message", Json.str "hi")])]) }

/-- The typed request `reqEcho` decodes to. -/
def trEcho : CallToolRequest :=
  { name := "echo", arguments := some (Json.obj [("message", Json.str "hi")]) }

/-- A `tools/call` request whose params are not decodable. -/
def reqBadParams : JsonRpcRequest :=
  { id := Json.num 7, method := "tools/call", params := some (Json.str "junk") }

/-- A `tools/call` request naming an unregistered tool. -/
def reqMissing : JsonRpcRequest :=
  { id := Json.num 10, method := "tools/call",
    params := some (Json.obj [("name", Json.str "missing")]) }

/-- The typed request `reqMissing` decodes to. -/
def trMissing : CallToolRequest := { name := "missing", arguments := none }

/-- A `prompts/get` request naming an unregistered prompt. -/
def reqMissingPrompt : JsonRpcRequest :=
  { id := Json.num 11, method := "prompts/get",
    params := some (Json.obj [("name", Json.str "absent")]) }

/-- The typed request `reqMissingPrompt` decodes to. -/
def prMissing : GetPromptRequest := { name := "absent", arguments := none }

/-- A typed `resources/read` request used to instantiate theorems. -/
def wReadReq : ReadResourceRequest := { uri := "file:///tmp/a" }

/-- A typed `prompts/get` request used to instantiate theorems. -/
def wPromptReq : GetPromptRequest := { name := "greet", arguments := none }

/-- A request whose method is outside the routing table. -/
def reqUnknown : JsonRpcRequest :=
  { id := Json.num 9, method := "nonexistent/method", params := none }

/-- A server built with no descriptors, used for the run-loop theorems. -/
def cxServer : Server := (ServerBuilder.new "srv" "0.1.0").build

/-- The request delivered by the concrete transports below. -/
def cxRequest : JsonRpcRequest :=
  { id := Json.num 1, method := "tools/list", params := none }

/-- A transport whose receive always succeeds and whose send always fails
with an I/O error. -/
def sendFailTransport : TransportModel Unit :=
  { receive_request := fun st => Except.ok (cxRequest, st),
    send_response := fun _ _ => Except.error (ServerError.ioErr "pipe closed") }

/-- A transport whose receive fails immediately. -/
def recvFailTransport : TransportModel Unit :=
  { receive_request := fun _ => Except.error (ServerError.transportErr "closed"),
    send_response := fun _ st => Except.ok st }

/-- A transport whose receive and send both succeed. -/
def sendOkTransport : TransportModel Unit :=
  { receive_request := fun st => Except.ok (cxRequest, st),
    send_response := fun _ st => Except.ok st }

/-- C2: For every tools/call, resources/read, or prompts/get request whose
params are absent or cannot be decoded into the operation's expected typed
request shape, the dispatch engine returns an invalid-params error response
and no registered handler is invoked.  The response is a fixed error
envelope independent of the server's registries (the statement holds for
every server), so the registry is not consulted and no handler runs. -/
theorem decode_failure_invalid_params (s : Server) (req : JsonRpcRequest) :
    (req.params.bind CallToolRequest.fromJson = none →
      s.handle_call_tool req =
        JsonRpcResponse.mkError req.id (McpError.invalid_params "Invalid tool request")) ∧
    (req.params.bind ReadResourceRequest.fromJson = none →
      s.handle_read_resource req =
        JsonRpcResponse.mkError req.id (McpError.invalid_params "Invalid resource request")) ∧
    (req.params.bind GetPromptRequest.fromJson = none →
      s.handle_get_prompt req =
        JsonRpcResponse.mkError req.id (McpError.invalid_params "Invalid prompt request")) := by
  refine ⟨fun h => ?_, fun h => ?_, fun h => ?_⟩
  · simp [Server.handle_call_tool, h]
  · simp [Server.handle_read_resource, h]
  · simp [Server.handle_get_prompt, h]

/-- Witness for C2 at a concrete undecodable request against a server with
handlers registered. -/
theorem decode_failure_invalid_params_witness :
    wServerWithHandlers.handle_call_tool reqBadParams =
      JsonRpcResponse.mkError (Json.num 7) (McpError.invalid_params "Invalid tool request") :=
  (decode_failure_invalid_params wServerWithHandlers reqBadParams).1 rfl

/-- C3: For every handler category and key, registration always succeeds
with overwrite semantics and no error on duplicates: registering under an
already-registered key replaces the old handler, other keys are untouched,
and a subsequent dispatch for that key uses only the most recently
registered handler. -/
theorem last_registration_wins (s : Server) (k : String)
    (h1 h2 : ToolHandler) (p1 p2 : PromptHandler) (r1 r2 : ResourceHandler)
    (req : JsonRpcRequest) (tr : CallToolRequest) :
    (((s.set_tool_handler k h1).set_tool_handler k h2).tool_handlers k = some h2) ∧
    (∀ k', k' ≠ k →
      ((s.set_tool_handler k h1).set_tool_handler k h2).tool_handlers k' = s.tool_handlers k') ∧
    (((s.set_prompt_handler k p1).set_prompt_handler k p2).prompt_handlers k = some p2) ∧
    (((s.set_resource_handler r1).set_resource_handler r2).resource_handlers "default" = some r2) ∧
    (req.params.bind CallToolRequest.fromJson = some tr → tr.name = k →
      ((s.set_tool_handler k h1).set_tool_handler k h2).handle_call_tool req =
        match h2 tr with
        | Except.ok result => JsonRpcResponse.success req.id result.toJson
        | Except.error e => JsonRpcResponse.mkError req.id e) := by
  refine ⟨?_, fun k' hk => ?_, ?_, ?_, fun hdec hname => ?_⟩
  · simp [Server.set_tool_handler, HandlerMap.insert]
  · simp [Server.set_tool_handler, HandlerMap.insert, hk]
  · simp [Server.set_prompt_handler, HandlerMap.insert]
  · simp [Server.set_resource_handler, HandlerMap.insert]
  · simp [Server.handle_call_tool, hdec, Server.set_tool_handler, HandlerMap.insert, hname]

/-- Witness for C3: after registering "old" then "new" handlers under
"echo", a concrete call returns the new handler's result. -/
theorem last_registration_wins_witness :
    (((wBuilder.build).set_tool_handler "echo" oldToolHandler).set_tool_handler
        "echo" newToolHandler).handle_call_tool reqEcho =
      JsonRpcResponse.success (Json.num 8)
        (CallToolResult.toJson { content := [ToolResultContent.text "new"], is_error := none }) :=
  (last_registration_wins (wBuilder.build) "echo" oldToolHandler newToolHandler
    wPromptHandler wPromptHandler wResourceHandler wResourceHandler reqEcho trEcho).2.2.2.2 rfl rfl

/-- C4: the derived capability set has each category present if and only if
the corresponding descriptor list is non-empty, every present category
carries its sub-flags unset, logging is unconditionally present, and the
derivation is a deterministic function of the three lists alone. -/
theorem build_capability_derivation (b : ServerBuilder) :
    ((b.build).capabilities.tools.isSome = !b.tools.isEmpty) ∧
    ((b.build).capabilities.resources.isSome = !b.resources.isEmpty) ∧
    ((b.build).capabilities.prompts.isSome = !b.prompts.isEmpty) ∧
    (∀ tc, (b.build).capabilities.tools = some tc → tc.list_changed = none) ∧
    (∀ rc, (b.build).capabilities.resources = some rc →
      rc.subscribe = none ∧ rc.list_changed = none) ∧
    (∀ pc, (b.build).capabilities.prompts = some pc → pc.list_changed = none) ∧
    ((b.build).capabilities.logging = some {}) ∧
    (∀ b' : ServerBuilder, b'.tools = b.tools → b'.resources = b.resources →
      b'.prompts = b.prompts → (b'.build).capabilities = (b.build).capabilities) := by
  refine ⟨?_, ?_, ?_, fun tc htc => ?_, fun rc hrc => ?_, fun pc hpc => ?_, rfl,
    fun b' ht hr hp => ?_⟩
  · cases h : b.tools.isEmpty <;> simp [ServerBuilder.build, h]
  · cases h : b.resources.isEmpty <;> simp [ServerBuilder.build, h]
  · cases h : b.prompts.isEmpty <;> simp [ServerBuilder.build, h]
  · cases h : b.tools.isEmpty <;> simp [ServerBuilder.build, h] at htc
    subst htc; rfl
  · cases h : b.resources.isEmpty <;> simp [ServerBuilder.build, h] at hrc
    subst hrc; exact ⟨rfl, rfl⟩
  · cases h : b.prompts.isEmpty <;> simp [ServerBuilder.build, h] at hpc
    subst hpc; rfl
  · simp only [ServerBuilder.build]
    rw [ht, hr, hp]

/-- Witness for C4 at a concrete builder with one tool: the tools category
is present with its sub-flag unset. -/
theorem build_capability_derivation_witness :
    (wBuilder.build).capabilities.tools = some { list_changed := none } ∧
    (({ list_changed := none } : ToolsCapability)).list_changed = none :=
  ⟨rfl, (build_capability_derivation wBuilder).2.2.2.1 { list_changed := none } rfl⟩

/-- C5: For every tools/call, resources/read, or prompts/get request that
decodes successfully and finds a registered handler, a handler success
yields a success envelope with the request's identifier and the serialized
result, a handler error is placed verbatim in the response's error field
with no translation, and either envelope carries the request's identifier
with exactly one of success payload or error present. -/
theorem handler_result_mapping (s : Server) (req : JsonRpcRequest)
    (tr : CallToolRequest) (rr : ReadResourceRequest) (pr : GetPromptRequest)
    (th : ToolHandler) (rh : ResourceHandler) (ph : PromptHandler) :
    (req.params.bind CallToolRequest.fromJson = some tr → s.tool_handlers tr.name = some th →
      (∀ result, th tr = Except.ok result →
        s.handle_call_tool req = JsonRpcResponse.success req.id result.toJson) ∧
      (∀ e, th tr = Except.error e →
        s.handle_call_tool req = JsonRpcResponse.mkError req.id e)) ∧
    (req.params.bind ReadResourceRequest.fromJson = some rr →
      s.resource_handlers "default" = some rh →
      (∀ result, rh rr = Except.ok result →
        s.handle_read_resource req = JsonRpcResponse.success req.id result.toJson) ∧
      (∀ e, rh rr = Except.error e →
        s.handle_read_resource req = JsonRpcResponse.mkError req.id e)) ∧
    (req.params.bind GetPromptRequest.fromJson = some pr →
      s.prompt_handlers pr.name = some ph →
      (∀ result, ph pr = Except.ok result →
        s.handle_get_prompt req = JsonRpcResponse.success req.id result.toJson) ∧
      (∀ e, ph pr = Except.error e →
        s.handle_get_prompt req = JsonRpcResponse.mkError req.id e)) ∧
    (∀ i v, (JsonRpcResponse.success i v).id = i ∧
      (JsonRpcResponse.success i v).result = some v ∧
      (JsonRpcResponse.success i v).error = none) ∧
    (∀ i e, (JsonRpcResponse.mkError i e).id = i ∧
      (JsonRpcResponse.mkError i e).result = none ∧
      (JsonRpcResponse.mkError i e).error = some e) := by
  refine ⟨fun hdec hfind => ⟨fun result hres => ?_, fun e hres => ?_⟩,
    fun hdec hfind => ⟨fun result hres => ?_, fun e hres => ?_⟩,
    fun hdec hfind => ⟨fun result hres => ?_, fun e hres => ?_⟩,
    fun i v => ⟨rfl, rfl, rfl⟩, fun i e => ⟨rfl, rfl, rfl⟩⟩
  · simp [Server.handle_call_tool, hdec, hfind, hres]
  · simp [Server.handle_call_tool, hdec, hfind, hres]
  · simp [Server.handle_read_resource, hdec, hfind, hres]
  · simp [Server.handle_read_resource, hdec, hfind, hres]
  · simp [Server.handle_get_prompt, hdec, hfind, hres]
  · simp [Server.handle_get_prompt, hdec, hfind, hres]

/-- Witness for C5: a concrete successful call maps to a success envelope,
and a concrete failing handler's error appears verbatim. -/
theorem handler_result_mapping_witness :
    wServerWithHandlers.handle_call_tool reqEcho =
      JsonRpcResponse.success (Json.num 8)
        (CallToolResult.toJson { content := [ToolResultContent.text "hi"], is_error := none }) ∧
    wServerErr.handle_call_tool reqEcho =
      JsonRpcResponse.mkError (Json.num 8) (McpError.other 5 "boom" none) :=
  ⟨((handler_result_mapping wServerWithHandlers reqEcho trEcho wReadReq wPromptReq
      okToolHandler wResourceHandler wPromptHandler).1 rfl rfl).1 _ rfl,
   ((handler_result_mapping wServerErr reqEcho trEcho wReadReq wPromptReq
      errToolHandler wResourceHandler wPromptHandler).1 rfl rfl).2 _ rfl⟩

/-- C6: every request whose method is not one of the seven fixed protocol
operations is answered with a method-not-found error naming the method; the
routing table is fixed and exhaustive, and no registered handler receives
such a request (the response is the same for every server). -/
theorem unknown_method_not_found (s : Server) (req : JsonRpcRequest)
    (h : req.method ∉ (["initialize", "tools/list", "tools/call", "resources/list",
      "resources/read", "prompts/list", "prompts/get"] : List String)) :
    s.handle_request req = JsonRpcResponse.mkError req.id (McpError.method_not_found req.method) := by
  simp only [List.mem_cons, List.not_mem_nil, or_false, not_or] at h
  obtain ⟨h1, h2, h3, h4, h5, h6, h7⟩ := h
  simp [Server.handle_request, h1, h2, h3, h4, h5, h6, h7]

/-- Witness for C6 at a concrete unroutable method. -/
theorem unknown_method_not_found_witness :
    wServerWithHandlers.handle_request reqUnknown =
      JsonRpcResponse.mkError (Json.num 9) (McpError.method_not_found "nonexistent/method") :=
  unknown_method_not_found wServerWithHandlers reqUnknown (by decide)

/-- C7: for tools/call and prompts/get, a successfully decoded request
whose tool or prompt name has no registered handler is answered with a
method-not-found-class error whose message names the missing tool or
prompt; the dispatch function performs the single lookup shown, with no
retry. -/
theorem missing_handler_named_error (s : Server) (req : JsonRpcRequest)
    (tr : CallToolRequest) (pr : GetPromptRequest) :
    (req.params.bind CallToolRequest.fromJson = some tr → s.tool_handlers tr.name = none →
      s.handle_call_tool req =
        JsonRpcResponse.mkError req.id
          (McpError.method_not_found ("Tool not found: " ++ tr.name)) ∧
      ∃ pre post, "Tool not found: " ++ tr.name = pre ++ tr.name ++ post) ∧
    (req.params.bind GetPromptRequest.fromJson = some pr → s.prompt_handlers pr.name = none →
      s.handle_get_prompt req =
        JsonRpcResponse.mkError req.id
          (McpError.method_not_found ("Prompt not found: " ++ pr.name)) ∧
      ∃ pre post, "Prompt not found: " ++ pr.name = pre ++ pr.name ++ post) := by
  refine ⟨fun hdec hnone => ⟨?_, "Tool not found: ", "", by simp⟩,
    fun hdec hnone => ⟨?_, "Prompt not found: ", "", by simp⟩⟩
  · simp [Server.handle_call_tool, hdec, hnone]
  · simp [Server.handle_get_prompt, hdec, hnone]

/-- Witness for C7: calling the unregistered tool "missing" and the
unregistered prompt "absent" on concrete servers. -/
theorem missing_handler_named_error_witness :
    wServerWithHandlers.handle_call_tool reqMissing =
      JsonRpcResponse.mkError (Json.num 10)
        (McpError.method_not_found ("Tool not found: " ++ "missing")) ∧
    wServerWithHandlers.handle_get_prompt reqMissingPrompt =
      JsonRpcResponse.mkError (Json.num 11)
        (McpError.method_not_found ("Prompt not found: " ++ "absent")) :=
  ⟨((missing_handler_named_error wServerWithHandlers reqMissing trMissing prMissing).1 rfl rfl).1,
   ((missing_handler_named_error wServerWithHandlers reqMissingPrompt trMissing prMissing).2 rfl rfl).1⟩

/-- Each single registration action leaves the server identity, capability
set and descriptor lists unchanged. -/
theorem applyAction_frame (s : Server) (a : RegAction) :
    (s.applyAction a).info = s.info ∧ (s.applyAction a).capabilities = s.capabilities ∧
    (s.applyAction a).tools = s.tools ∧ (s.applyAction a).resources = s.resources ∧
    (s.applyAction a).prompts = s.prompts := by
  cases a <;>
    simp [Server.applyAction, Server.set_tool_handler, Server.set_resource_handler,
      Server.set_prompt_handler]

/-- Any sequence of registration actions leaves the server identity,
capability set and descriptor lists unchanged. -/
theorem applyActions_frame (s : Server) (acts : List RegAction) :
    (s.applyActions acts).info = s.info ∧ (s.applyActions acts).capabilities = s.capabilities ∧
    (s.applyActions acts).tools = s.tools ∧ (s.applyActions acts).resources = s.resources ∧
    (s.applyActions acts).prompts = s.prompts := by
  induction acts generalizing s with
  | nil => exact ⟨rfl, rfl, rfl, rfl, rfl⟩
  | cons a rest ih =>
    obtain ⟨h1, h2, h3, h4, h5⟩ := applyAction_frame s a
    obtain ⟨g1, g2, g3, g4, g5⟩ := ih (s.applyAction a)
    exact ⟨g1.trans h1, g2.trans h2, g3.trans h3, g4.trans h4, g5.trans h5⟩

/-- C9: for every server and every sequence of set_tool_handler,
set_resource_handler and set_prompt_handler calls, the server identity, the
capability set and the three advertised descriptor lists are unchanged, and
initialize, tools/list, resources/list and prompts/list return the same
responses before and after the registrations. -/
theorem registration_preserves_observations (s : Server) (acts : List RegAction)
    (r1 r2 r3 r4 : JsonRpcRequest) :
    (s.applyActions acts).info = s.info ∧
    (s.applyActions acts).capabilities = s.capabilities ∧
    (s.applyActions acts).tools = s.tools ∧
    (s.applyActions acts).resources = s.resources ∧
    (s.applyActions acts).prompts = s.prompts ∧
    Server.handle_initialize (s.applyActions acts) r1 = s.handle_initialize r1 ∧
    (s.applyActions acts).handle_list_tools r2 = s.handle_list_tools r2 ∧
    (s.applyActions acts).handle_list_resources r3 = s.handle_list_resources r3 ∧
    (s.applyActions acts).handle_list_prompts r4 = s.handle_list_prompts r4 := by
  obtain ⟨hi, hc, ht, hr, hp⟩ := applyActions_frame s acts
  refine ⟨hi, hc, ht, hr, hp, ?_, ?_, ?_, ?_⟩
  · simp [Server.handle_initialize, Server.initializeResult, hi, hc]
  · simp [Server.handle_list_tools, ht]
  · simp [Server.handle_list_resources, hr]
  · simp [Server.handle_list_prompts, hp]

/-- C10: the description and instructions supplied to the builder are
discarded at build time — building with or without them yields the same
server, so they are observable through no protocol operation — and the
initialize response always carries instructions equal to None. -/
theorem instructions_discarded (b : ServerBuilder) (d i : String) (req : JsonRpcRequest) :
    (b.with_description d).build = b.build ∧
    (b.with_instructions i).build = b.build ∧
    (b.build).initializeResult.instructions = none ∧
    Server.handle_initialize b.build req =
      JsonRpcResponse.success req.id (b.build).initializeResult.toJson :=
  ⟨rfl, rfl, rfl, rfl⟩

/-- C8 counterexample: the loop does not run until the receive operation
fails — it also exits when the send operation fails.  On a transport whose
receive always succeeds and whose send fails with an I/O error, the loop
terminates with the send failure even though receive never failed. -/
theorem run_terminates_on_send_failure :
    sendFailTransport.receive_request () = Except.ok (cxRequest, ()) ∧
    cxServer.run sendFailTransport 1 () = Except.error (ServerError.ioErr "pipe closed") :=
  ⟨rfl, rfl⟩

/-- C8 (amended): the dispatch loop runs until a Transport operation
(receive or send) fails, at which point the loop exits and that transport
failure propagates to the caller as the fatal server-level error; protocol
errors and handler errors never terminate the loop — every received
request, whatever response the dispatch produces for it, is followed by the
loop continuing once the response is sent. -/
theorem run_loop_propagation (s : Server) (t : TransportModel σ) (n : Nat) (st : σ) :
    (∀ e, t.receive_request st = Except.error e → s.run t (n + 1) st = Except.error e) ∧
    (∀ req st' e, t.receive_request st = Except.ok (req, st') →
      t.send_response (s.handle_request req) st' = Except.error e →
      s.run t (n + 1) st = Except.error e) ∧
    (∀ req st' st'', t.receive_request st = Except.ok (req, st') →
      t.send_response (s.handle_request req) st' = Except.ok st'' →
      s.run t (n + 1) st = s.run t n st'') := by
  refine ⟨fun e hrec => ?_, fun req st' e hrec hsend => ?_, fun req st' st'' hrec hsend => ?_⟩
  · show (t.receive_request st >>= fun p =>
        t.send_response (s.handle_request p.1) p.2 >>= fun c => s.run t n c) = Except.error e
    rw [hrec]
    rfl
  · show (t.receive_request st >>= fun p =>
        t.send_response (s.handle_request p.1) p.2 >>= fun c => s.run t n c) = Except.error e
    rw [hrec]
    show (t.send_response (s.handle_request req) st' >>= fun c => s.run t n c) = Except.error e
    rw [hsend]
    rfl
  · show (t.receive_request st >>= fun p =>
        t.send_response (s.handle_request p.1) p.2 >>= fun c => s.run t n c) = s.run t n st''
    rw [hrec]
    show (t.send_response (s.handle_request req) st' >>= fun c => s.run t n c) = s.run t n st''
    rw [hsend]
    rfl

/-- Witness for C8 at concrete transports: a receive failure propagates, a
send failure propagates, and a successful cycle continues the loop. -/
theorem run_loop_propagation_witness :
    cxServer.run recvFailTransport 1 () = Except.error (ServerError.transportErr "closed") ∧
    cxServer.run sendFailTransport 1 () = Except.error (ServerError.ioErr "pipe closed") ∧
    cxServer.run sendOkTransport 1 () = cxServer.run sendOkTransport 0 () :=
  ⟨(run_loop_propagation cxServer recvFailTransport 0 ()).1 _ rfl,
   (run_loop_propagation cxServer sendFailTransport 0 ()).2.1 cxRequest () _ rfl rfl,
   (run_loop_propagation cxServer sendOkTransport 0 ()).2.2 cxRequest () () rfl rfl⟩

/-- C1 counterexample: handler invocation does not happen outside the
registry-held guard.  In the guard-event traces read off
`Server::handle_call_tool`, `Server::handle_read_resource` and
`Server::handle_get_prompt`, the handler invocation occurs strictly between
the acquisition and the release of the registry read guard. -/
theorem invocation_outside_guard_refuted :
    invokeOutsideGuard callToolGuardTrace = false ∧
    invokeOutsideGuard readResourceGuardTrace = false ∧
    invokeOutsideGuard getPromptGuardTrace = false := by
  decide

/-- C1 (amended): for every tools/call, resources/read or prompts/get
dispatch, handler invocation happens while the registry read guard is held
(guard depth 1 at the invocation event, returning to 0 only afterwards), so
a long-running in-flight handler blocks a concurrent handler registration —
a write acquisition is not grantable while the call is in flight — while an
unrelated concurrent lookup (a reader) remains grantable; a concurrent
replacement still cannot affect an in-flight call, since the write guard
cannot be acquired before the in-flight call's read guard is released. -/
theorem invocation_guard_discipline :
    (callToolGuardTrace[1]? = some RegistryEvent.handlerInvoke ∧
      guardDepthAt callToolGuardTrace 1 = 1 ∧
      writeGrantable (guardDepthAt callToolGuardTrace 1) = false ∧
      readGrantable false = true ∧
      guardDepthAt callToolGuardTrace 3 = 0 ∧
      writeGrantable (guardDepthAt callToolGuardTrace 3) = true) ∧
    (readResourceGuardTrace[1]? = some RegistryEvent.handlerInvoke ∧
      guardDepthAt readResourceGuardTrace 1 = 1 ∧
      writeGrantable (guardDepthAt readResourceGuardTrace 1) = false) ∧
    (getPromptGuardTrace[1]? = some RegistryEvent.handlerInvoke ∧
      guardDepthAt getPromptGuardTrace 1 = 1 ∧
      writeGrantable (guardDepthAt getPromptGuardTrace 1) = false) := by
  decide
